import Mathlib

/-!
Verification development for the openvpn3 client library core.

Each definition below is a shallow embedding of a function or data
structure of the C++ source (files under the repository root:
client/ovpncli.hpp, openvpn/common/hostport.hpp, openvpn/dco/dcocli.hpp
and the mbed TLS SSL-context translation unit).  C++ strings are
modelled as `List Char`, machine integers as `Nat`/`Int`, buffers as
opaque `Nat` tags, exceptions as explicit `Except`/`Option` results,
and the mbed TLS engine as an oracle parameter.  A few collaborators
whose code is not part of the repository snapshot (the replay window
service, the `Stop` object, the decimal number parser) are modelled
from the specification; each such definition carries a doc comment
starting with `Modelled from the spec:`.
-/

namespace OpenVPN

/-! ## mbed TLS SSL context (MbedTLSContext / MbedTLSContext::SSL) -/

namespace MbedSSL

/-- `MbedTLSContext::MAX_CIPHERTEXT_IN`: maximum number of queued input
ciphertext packets. -/
def MAX_CIPHERTEXT_IN : Nat := 64

/-- `MbedTLSContext::support_key_material_export()`: the mbed TLS backend
reports no support for RFC 5705 key material export. -/
def support_key_material_export : Bool := false

/-- `MbedTLSContext::SSL::export_keying_material(label, buf, size)`: the body
is literally `return false` (not implemented in the mbed TLS backend); no
keying material is ever written. -/
def export_keying_material (_label : List Char) (_size : Nat) : Bool := false

/-- The mutable per-session state relevant to the ciphertext input queue of
`MbedTLSContext::SSL`: `ct_in` (a `MemQStream`, a FIFO of buffers, whose
`size()` is the number of queued buffers) and the `overflow` flag.  Buffers
are opaque `Nat` tags. -/
structure SSLState where
  ctIn : List Nat
  overflow : Bool
  deriving Repr, DecidableEq

/-- Session state right after `MbedTLSContext::SSL::SSL` (the constructor
calls `clear()`, which sets `overflow = false`; the queues start empty). -/
def initSSLState : SSLState := { ctIn := [], overflow := false }

/-- `MbedTLSContext::SSL::write_ciphertext(buf)`: queue the record if fewer
than `MAX_CIPHERTEXT_IN` records are queued, otherwise set `overflow`. -/
def write_ciphertext (buf : Nat) (s : SSLState) : SSLState :=
  if s.ctIn.length < MAX_CIPHERTEXT_IN then { s with ctIn := s.ctIn ++ [buf] }
  else { s with overflow := true }

/-- Status that `mbedtls_ssl_read` may return, as interpreted by
`read_cleartext`: nonnegative byte count, `CT_WOULD_BLOCK`,
`MBEDTLS_ERR_SSL_PEER_CLOSE_NOTIFY`, `CT_INTERNAL_ERROR`, or any other
negative code. -/
inductive MbedStatus where
  | ok (n : Nat)
  | wouldBlock
  | peerCloseNotify
  | internalError
  | otherError (code : Int)
  deriving Repr, DecidableEq

/-- Result of a successful `read_cleartext` call. -/
inductive ReadOutcome where
  | data (n : Nat)
  | shouldRetry
  | peerCloseNotify
  deriving Repr, DecidableEq

/-- Failures thrown by `read_cleartext`: `ssl_ciphertext_in_overflow` (the
fatal SSL_ERROR of the specification), the internal-error exception, and
the generic SSL read error. -/
inductive SslFailure where
  | ciphertextInOverflow
  | internalError
  | readError (code : Int)
  deriving Repr, DecidableEq

/-- One pump of the TLS engine, as an oracle: the status `mbedtls_ssl_read`
returns and the number of queued ciphertext records it drained through the
BIO read callback while producing that status. -/
structure TLSReadStep where
  status : MbedStatus
  consumed : Nat
  deriving Repr, DecidableEq

/-- `MbedTLSContext::SSL::read_cleartext(data, capacity)`: if `overflow` is
set, throw `ssl_ciphertext_in_overflow` without touching the engine;
otherwise pump `mbedtls_ssl_read` (the oracle `step`) and translate its
status.  Returns the thrown failure or the outcome, together with the
state after the call. -/
def read_cleartext (step : TLSReadStep) (s : SSLState) :
    Except SslFailure ReadOutcome × SSLState :=
  if s.overflow then (Except.error SslFailure.ciphertextInOverflow, s)
  else
    let s2 : SSLState := { s with ctIn := s.ctIn.drop step.consumed }
    match step.status with
    | MbedStatus.ok n => (Except.ok (ReadOutcome.data n), s2)
    | MbedStatus.wouldBlock => (Except.ok ReadOutcome.shouldRetry, s2)
    | MbedStatus.peerCloseNotify => (Except.ok ReadOutcome.peerCloseNotify, s2)
    | MbedStatus.internalError => (Except.error SslFailure.internalError, s2)
    | MbedStatus.otherError c => (Except.error (SslFailure.readError c), s2)

/-- Events that touch the ciphertext input queue of one session. -/
inductive SSLEv where
  | write (buf : Nat)
  | read (step : TLSReadStep)
  deriving Repr, DecidableEq

/-- Apply one event to the session state. -/
def sslStep (s : SSLState) (e : SSLEv) : SSLState :=
  match e with
  | SSLEv.write b => write_ciphertext b s
  | SSLEv.read st => (read_cleartext st s).2

/-- Run a sequence of events from a given state. -/
def sslRun (s : SSLState) (evs : List SSLEv) : SSLState :=
  evs.foldl sslStep s

end MbedSSL

/-! ## Peer certificate metadata (AuthCert handling in the mbed TLS context) -/

namespace MbedVerify

/-- Client/server mode of the SSL context (`openvpn::Mode`). -/
inductive Mode where
  | client
  | server
  deriving Repr, DecidableEq

/-- The fields of an X509 certificate that the verify callbacks read:
common name, raw serial bytes, and the SHA1 digest of the raw DER data
(`none` models a failing `mbedtls_sha1` call). -/
structure X509Cert where
  cn : List Char
  serialRaw : List Nat
  rawSha1 : Option (List Nat)
  deriving Repr, DecidableEq

/-- The slice of `AuthCert` that the mbed TLS backend fills in: common
name, zero-padded serial number (`none` until loaded), issuer fingerprint
(`none` until loaded), and the `defined_` flag. -/
structure AuthCert where
  cn : List Char
  serial : Option (List Nat)
  issuerFp : Option (List Nat)
  defined_ : Bool
  deriving Repr, DecidableEq

/-- A freshly constructed `AuthCert` (nothing loaded yet). -/
def emptyAuthCert : AuthCert :=
  { cn := [], serial := none, issuerFp := none, defined_ := false }

/-- `MbedTLSContext::load_serial_number_into_authcert`: when the raw serial
is nonempty and fits the fixed-size field (capacity `cap` bytes), store it
right-aligned with a zero-filled head; otherwise leave the field alone. -/
def load_serial_number_into_authcert (cap : Nat) (ac : AuthCert) (cert : X509Cert) :
    AuthCert :=
  if 0 < cert.serialRaw.length ∧ cert.serialRaw.length ≤ cap then
    { ac with serial := some (List.replicate (cap - cert.serialRaw.length) 0 ++ cert.serialRaw) }
  else ac

/-- `MbedTLSContext::load_issuer_fingerprint_into_authcert`: store the SHA1
of the issuer certificate; report failure when the hash call fails. -/
def load_issuer_fingerprint_into_authcert (ac : AuthCert) (cert : X509Cert) :
    Bool × AuthCert :=
  match cert.rawSha1 with
  | some fp => (true, { ac with issuerFp := some fp })
  | none => (false, ac)

/-- The authcert-related state of `MbedTLSContext::SSL`. -/
structure SSLVerify where
  mode : Mode
  authcert : Option AuthCert
  deriving Repr, DecidableEq

/-- The authcert initialisation in the `MbedTLSContext::SSL` constructor:
`authcert.reset(new AuthCert())` runs only in server mode; in client mode
the pointer stays null. -/
def mkSSL (mode : Mode) : SSLVerify :=
  { mode := mode, authcert := if mode = Mode.server then some emptyAuthCert else none }

/-- `auth_cert()` accessor of `MbedTLSContext::SSL`. -/
def auth_cert (ssl : SSLVerify) : Option AuthCert := ssl.authcert

/-- Outcome of the configuration-dependent leaf checks that both verify
callbacks perform (`ns-cert-type`, `remote-cert-ku`, `remote-cert-eku`):
whether each check is configured and whether the certificate passes it. -/
structure LeafChecks where
  nsDefined : Bool
  nsOk : Bool
  kuDefined : Bool
  kuOk : Bool
  ekuDefined : Bool
  ekuOk : Bool
  deriving Repr, DecidableEq

/-- The fail flag accumulated over the leaf checks shared by both verify
callbacks. -/
def leafChecksFail (c : LeafChecks) : Bool :=
  (c.nsDefined && !c.nsOk) || (c.kuDefined && !c.kuOk) || (c.ekuDefined && !c.ekuOk)

/-- `MbedTLSContext::verify_callback_server`: at depth 1 store the issuer
fingerprint into the authcert (failure of the SHA1 call raises the fail
flag); at depth 0 run the leaf checks and, when an authcert exists, store
the common name and serial number and mark it defined.  Returns the new
state and whether `MBEDTLS_X509_BADCERT_OTHER` was OR-ed into the flags. -/
def verify_callback_server (cap : Nat) (checks : LeafChecks) (cert : X509Cert)
    (depth : Nat) (ssl : SSLVerify) : SSLVerify × Bool :=
  if depth = 1 then
    match ssl.authcert with
    | some ac =>
      let r := load_issuer_fingerprint_into_authcert ac cert
      ({ ssl with authcert := some r.2 }, !r.1)
    | none => (ssl, false)
  else if depth = 0 then
    let fail := leafChecksFail checks
    match ssl.authcert with
    | some ac =>
      let ac2 := load_serial_number_into_authcert cap { ac with cn := cert.cn } cert
      ({ ssl with authcert := some { ac2 with defined_ := true } }, fail)
    | none => (ssl, fail)
  else (ssl, false)

/-- `MbedTLSContext::verify_callback_client`: performs the leaf checks plus
tls-remote and verify-x509-name matching (their outcomes are oracle inputs
here) and never touches the authcert.  Returns the unchanged state and the
fail flag. -/
def verify_callback_client (checks : LeafChecks) (tlsRemoteOk : Option Bool)
    (x509NameOk : Option Bool) (depth : Nat) (ssl : SSLVerify) : SSLVerify × Bool :=
  if depth = 0 then
    let fail := leafChecksFail checks
        || (match tlsRemoteOk with | some ok => !ok | none => false)
        || (match x509NameOk with | some ok => !ok | none => false)
    (ssl, fail)
  else (ssl, false)

end MbedVerify

/-! ## tls-remote matching (openvpn/dco/dcocli.hpp, namespace TLSRemote) -/

namespace TLSRemote

/-- Characters kept verbatim by `TLSRemote::sanitize_x509_name`. -/
def x509_name_char_ok (c : Char) : Bool :=
  (97 ≤ c.toNat && c.toNat ≤ 122)
  || (65 ≤ c.toNat && c.toNat ≤ 90)
  || (48 ≤ c.toNat && c.toNat ≤ 57)
  || c = '_' || c = '-' || c = '.'
  || c = '@' || c = ':' || c = '/'
  || c = '='

/-- Characters kept verbatim by `TLSRemote::sanitize_common_name`. -/
def common_name_char_ok (c : Char) : Bool :=
  (97 ≤ c.toNat && c.toNat ≤ 122)
  || (65 ≤ c.toNat && c.toNat ≤ 90)
  || (48 ≤ c.toNat && c.toNat ≤ 57)
  || c = '_' || c = '-' || c = '.'
  || c = '@' || c = '/'

/-- Loop body of `TLSRemote::sanitize_x509_name`, with the `leading_dash`
flag threaded through: leading dashes become underscores, every later
character is kept when allowed and replaced by an underscore otherwise. -/
def sanitize_x509_go (leadingDash : Bool) : List Char → List Char
  | [] => []
  | c :: rest =>
    if c = '-' && leadingDash then '_' :: sanitize_x509_go true rest
    else (if x509_name_char_ok c then c else '_') :: sanitize_x509_go false rest

/-- `TLSRemote::sanitize_x509_name`. -/
def sanitize_x509_name (s : List Char) : List Char := sanitize_x509_go true s

/-- `TLSRemote::sanitize_common_name`: character-wise remapping with no
leading-dash special case. -/
def sanitize_common_name (s : List Char) : List Char :=
  s.map fun c => if common_name_char_ok c then c else '_'

/-- `TLSRemote::test(tls_remote, subject, common_name)`: exact match on the
subject, or the common name starts with the tls-remote string. -/
def test (tls_remote subject common_name : List Char) : Bool :=
  tls_remote == subject || tls_remote.isPrefixOf common_name

end TLSRemote

/-! ## Host/port validation (openvpn/common/hostport.hpp) -/

namespace HostPort

/-- Decimal digit test used by the number parser. -/
def isDecDigit (c : Char) : Bool := 48 ≤ c.toNat && c.toNat ≤ 57

/-- Value of a decimal digit string (leading zeros allowed). -/
def decValue (s : List Char) : Nat :=
  s.foldl (fun a c => a * 10 + (c.toNat - 48)) 0

/-- Helper of the decimal parser: accumulate digit values, fail on any
non-digit character. -/
def parse_dec_go (s : List Char) (acc : Nat) : Option Nat :=
  match s with
  | [] => some acc
  | c :: rest => if isDecDigit c then parse_dec_go rest (acc * 10 + (c.toNat - 48)) else none

/-- Modelled from the spec: `parse_number` (openvpn/common/number.hpp is
not part of the repository snapshot) parses a nonempty all-decimal string
into an unsigned value and fails otherwise. -/
def parse_number (s : List Char) : Option Nat :=
  match s with
  | [] => none
  | _ => parse_dec_go s 0

/-- Modelled from the spec: `parse_number_validate<T>(str, max_len, min,
max)` (openvpn/common/number.hpp is not part of the repository snapshot)
accepts a string of at most `maxLen` characters that parses as a decimal
number within `[lo, hi]` and returns the value. -/
def parse_number_validate (maxLen lo hi : Nat) (s : List Char) : Option Nat :=
  if s.length ≤ maxLen then
    match parse_number s with
    | some v => if lo ≤ v ∧ v ≤ hi then some v else none
    | none => none
  else none

/-- `HostPort::is_valid_port(const unsigned int port)`. -/
def is_valid_port_num (port : Nat) : Bool := port < 65536

/-- `HostPort::is_valid_port(const std::string &port)`:
`parse_number_validate<unsigned int>(port, 5, 1, 65535)`. -/
def is_valid_port_str (port : List Char) : Bool :=
  (parse_number_validate 5 1 65535 port).isSome

/-- `HostPort::is_valid_host_char`. -/
def is_valid_host_char (c : Char) : Bool :=
  (97 ≤ c.toNat && c.toNat ≤ 122)
  || (65 ≤ c.toNat && c.toNat ≤ 90)
  || (48 ≤ c.toNat && c.toNat ≤ 57)
  || c = '.' || c = '-' || c = ':'

/-- `HostPort::is_valid_host`. -/
def is_valid_host (host : List Char) : Bool :=
  decide (0 < host.length) && decide (host.length ≤ 256) && host.all is_valid_host_char

/-- `HostPort::is_valid_unix_sock_char`. -/
def is_valid_unix_sock_char (c : Char) : Bool :=
  33 ≤ c.toNat && c.toNat ≤ 126

/-- `HostPort::is_valid_unix_sock`. -/
def is_valid_unix_sock (host : List Char) : Bool :=
  decide (0 < host.length) && decide (host.length ≤ 256) && host.all is_valid_unix_sock_char

/-- `find_first_of(c)` on a string, as an optional index. -/
def findFirstOf (s : List Char) (c : Char) : Option Nat := s.indexOf? c

/-- `find_last_of(c)` on a string, as an optional index. -/
def findLastOf (s : List Char) (c : Char) : Option Nat :=
  match s.reverse.indexOf? c with
  | some i => some (s.length - 1 - i)
  | none => none

/-- Unbracket step of `split_host_port`: strip one layer of square
brackets around the host. -/
def unbracket (host : List Char) : List Char :=
  if 2 ≤ host.length ∧ host.headI = '[' ∧ host.getLastI = ']' then
    (host.drop 1).dropLast
  else host

/-- First phase of `HostPort::split_host_port`: pick the host/port split
point from the colon and bracket positions, or fall back to the default
port.  The two boolean guards are the two parenthesised conditions of the
source (`cb == npos || cb + 1 == lpos` and `cb != npos || fpos == lpos`). -/
def split_raw (str : List Char) (default_port : List Char) :
    Option (List Char × List Char) :=
  let fpos := findFirstOf str ':'
  let cb := findLastOf str ']'
  match findLastOf str ':' with
  | some l =>
    let bracketOk := match cb with | none => true | some b => decide (b + 1 = l)
    let singleColonOk := match cb with | none => decide (fpos = some l) | some _ => true
    if bracketOk && singleColonOk then some (str.take l, str.drop (l + 1))
    else if default_port ≠ [] then some (str, default_port)
    else none
  | none =>
    if default_port ≠ [] then some (str, default_port)
    else none

/-- `HostPort::split_host_port(str, host, port, default_port, allow_unix)`:
split on the last colon subject to the bracket rules, fall back to the
default port, unbracket the host, then validate.  Returns the host/port
pair on success, `none` on failure (the source returns `false` with the
out-parameters already overwritten). -/
def split_host_port (str : List Char) (default_port : List Char) (allow_unix : Bool) :
    Option (List Char × List Char) :=
  match split_raw str default_port with
  | none => none
  | some (h0, port) =>
    let host := unbracket h0
    if allow_unix && port == "unix".data then
      if is_valid_unix_sock host then some (host, port) else none
    else
      if is_valid_host host && is_valid_port_str port then some (host, port) else none

end HostPort

/-! ## Replay window service (spec section 4.1; the packet-id code itself
is not part of the repository snapshot) -/

namespace Replay

/-- Modelled from the spec: the per-key sliding replay window of the
Packet-ID service (spec sections 3 and 4.1; the implementing file is not
under the snapshot).  `width` is the window width, `high` the high-water
mark, and `seen` the set of accepted ids whose bit is set, all of which
lie in the half-open window `(high - width, high]`. -/
structure Window where
  width : Nat
  high : Nat
  seen : List Nat
  deriving Repr, DecidableEq

/-- Result of an `accept` call: admitted, rejected as expired
(PKTID_EXPIRE / below the window), or rejected as a replay
(PKTID_REPLAY / bit already set). -/
inductive AcceptResult where
  | accepted
  | rejectedExpired
  | rejectedReplay
  deriving Repr, DecidableEq

/-- Modelled from the spec: `accept(id)` of the Packet-ID service.  An id
at or below `high - width` fails as expired; an id whose bit is set fails
as a replay; otherwise the id is admitted, the window advances to
`max high id` and bits that fall out of the new window are cleared
(a shift larger than the width clears the whole bitmap, which the filter
below subsumes).  The expired test is phrased as `id + width ≤ high` to
match integer arithmetic `id ≤ high - width` without natural-number
truncation. -/
def accept (w : Window) (id : Nat) : AcceptResult × Window :=
  if id + w.width ≤ w.high then (AcceptResult.rejectedExpired, w)
  else if id ∈ w.seen then (AcceptResult.rejectedReplay, w)
  else if w.high < id then
    (AcceptResult.accepted,
      { w with high := id, seen := (id :: w.seen).filter fun j => id < j + w.width })
  else (AcceptResult.accepted, { w with seen := id :: w.seen })

/-- Run a sequence of `accept` operations, keeping only the final state. -/
def acceptRun (w : Window) (ids : List Nat) : Window :=
  ids.foldl (fun w id => (accept w id).2) w

/-- Window well-formedness: every id with its bit set is inside the
window `(high - width, high]`. -/
def WF (w : Window) : Prop :=
  ∀ j ∈ w.seen, w.high < j + w.width ∧ j ≤ w.high

end Replay

/-! ## Client API (client/ovpncli.hpp) -/

namespace ClientAPI

/-- Modelled from the spec: the `openvpn::Stop` object behind
`ClientState::async_stop_local_` (openvpn/common/stop.hpp is not part of
the repository snapshot).  Per spec section 5, `stop()` is idempotent: the
first call marks the object stopped and fires the registered stop
handlers (posting the terminal event, cancelling timers); later calls do
nothing. -/
structure StopObj where
  stopped : Bool
  fires : Nat
  deriving Repr, DecidableEq

/-- Modelled from the spec: `Stop::stop()`; fires the handlers exactly
once. -/
def StopObj.stop (o : StopObj) : StopObj :=
  if o.stopped then o else { stopped := true, fires := o.fires + 1 }

/-- Credentials held by `ClientState::creds` (`ClientCreds`, whose file is
outside the snapshot): the stored username, the password slot (which holds
the server-issued session id once one is defined), and the
`session_id_defined()` flag. -/
structure ClientCreds where
  username : List Char
  password : List Char
  sessionIdDefined : Bool
  deriving Repr, DecidableEq

/-- `ClientAPI::SessionToken`. -/
structure SessionToken where
  username : List Char
  session_id : List Char
  deriving Repr, DecidableEq

/-- Cross-thread messages that `pause` / `resume` / `reconnect` post onto
the event loop of a running session (`ClientConnect::thread_safe_*`). -/
inductive SessionMsg where
  | pauseMsg (reason : List Char)
  | resumeMsg
  | reconnectMsg (seconds : Int)
  deriving Repr, DecidableEq

/-- The running `ClientConnect` session, seen from the foreign-thread API:
the queue of posted cross-thread messages. -/
structure SessionObj where
  msgs : List SessionMsg
  deriving Repr, DecidableEq

/-- Snapshot of `MySessionStats` as read by the stats accessors.  The
`combinedValues` list backs `combined_value(i)`; the named counters back
`stat_count` / `error_count` for the ids the accessors use;
`lastPacketDelta` is the binary-millisecond age of the last received
packet (`none` when `last_packet_received()` is undefined).  `dco_update`
refreshes the counters in place, so the snapshot models the post-update
values. -/
structure MySessionStats where
  combinedValues : List Int
  tunBytesIn : Int
  tunBytesOut : Int
  tunPacketsIn : Int
  tunPacketsOut : Int
  tunReadErrors : Int
  tunWriteErrors : Int
  bytesIn : Int
  bytesOut : Int
  packetsIn : Int
  packetsOut : Int
  lastPacketDelta : Option Nat
  deriving Repr, DecidableEq

/-- `ClientAPI::InterfaceStats`. -/
structure InterfaceStats where
  bytesIn : Int
  packetsIn : Int
  errorsIn : Int
  bytesOut : Int
  packetsOut : Int
  errorsOut : Int
  deriving Repr, DecidableEq

/-- `ClientAPI::TransportStats`; `lastPacketReceived` is `-1` when
undefined. -/
structure TransportStats where
  bytesIn : Int
  bytesOut : Int
  packetsIn : Int
  packetsOut : Int
  lastPacketReceived : Int
  deriving Repr, DecidableEq

/-- The part of `Private::ClientState` that the foreign-thread API reads:
the `foreign_thread_ready` flag (set by `enable_foreign_thread_access()`
at the end of `connect_setup`, i.e. only once a session is attached and
started), the credentials, the session, the stats object, and the local
async-stop object. -/
structure ClientState where
  foreignThreadReady : Bool
  creds : Option ClientCreds
  session : Option SessionObj
  stats : Option MySessionStats
  asyncStopLocal : StopObj
  deriving Repr, DecidableEq

/-- A freshly constructed client, before `connect()` has attached and
started anything. -/
def initClientState : ClientState :=
  { foreignThreadReady := false
    creds := none
    session := none
    stats := none
    asyncStopLocal := { stopped := false, fires := 0 } }

/-- `OpenVPNClient::stop()`: trigger the local async stop, but only when
foreign-thread access is enabled. -/
def stop (st : ClientState) : ClientState :=
  if st.foreignThreadReady then { st with asyncStopLocal := st.asyncStopLocal.stop }
  else st

/-- `OpenVPNClient::pause(reason)`. -/
def pause (reason : List Char) (st : ClientState) : ClientState :=
  if st.foreignThreadReady then
    match st.session with
    | some s => { st with session := some { msgs := s.msgs ++ [SessionMsg.pauseMsg reason] } }
    | none => st
  else st

/-- `OpenVPNClient::resume()`. -/
def resume (st : ClientState) : ClientState :=
  if st.foreignThreadReady then
    match st.session with
    | some s => { st with session := some { msgs := s.msgs ++ [SessionMsg.resumeMsg] } }
    | none => st
  else st

/-- `OpenVPNClient::reconnect(seconds)`. -/
def reconnect (seconds : Int) (st : ClientState) : ClientState :=
  if st.foreignThreadReady then
    match st.session with
    | some s => { st with session := some { msgs := s.msgs ++ [SessionMsg.reconnectMsg seconds] } }
    | none => st
  else st

/-- `OpenVPNClient::session_token(tok)`: returns `some tok` exactly where
the C++ function returns true and fills `tok` (with the stored username
and the password slot as session id); `none` models returning false with
`tok` untouched. -/
def session_token (st : ClientState) : Option SessionToken :=
  if st.foreignThreadReady then
    match st.creds with
    | some cc =>
      if cc.sessionIdDefined then some { username := cc.username, session_id := cc.password }
      else none
    | none => none
  else none

/-- `OpenVPNClient::stats_value(index)`. -/
def stats_value (index : Nat) (st : ClientState) : Int :=
  if st.foreignThreadReady then
    match st.stats with
    | some s => s.combinedValues.getD index 0
    | none => 0
  else 0

/-- `OpenVPNClient::stats_bundle()`: `n` is the compile-time constant
`MySessionStats::combined_n()`. -/
def stats_bundle (n : Nat) (st : ClientState) : List Int :=
  if st.foreignThreadReady then
    (List.range n).map fun i =>
      match st.stats with
      | some s => s.combinedValues.getD i 0
      | none => 0
  else List.replicate n 0

/-- `OpenVPNClient::tun_stats()`: note the deliberate in/out inversion
between the TUN_* counters and the interface view. -/
def tun_stats (st : ClientState) : InterfaceStats :=
  if st.foreignThreadReady then
    match st.stats with
    | some s =>
      { bytesOut := s.tunBytesIn
        bytesIn := s.tunBytesOut
        packetsOut := s.tunPacketsIn
        packetsIn := s.tunPacketsOut
        errorsOut := s.tunReadErrors
        errorsIn := s.tunWriteErrors }
    | none =>
      { bytesOut := 0, bytesIn := 0, packetsOut := 0, packetsIn := 0
        errorsOut := 0, errorsIn := 0 }
  else
    { bytesOut := 0, bytesIn := 0, packetsOut := 0, packetsIn := 0
      errorsOut := 0, errorsIn := 0 }

/-- One day in binary milliseconds, the cutoff used by
`transport_stats`. -/
def LAST_PACKET_CUTOFF : Nat := 60 * 60 * 24 * 1024

/-- `OpenVPNClient::transport_stats()`: `lastPacketReceived` starts as
`-1` (undefined) and is only overwritten when a last-received time is
defined and recent enough. -/
def transport_stats (st : ClientState) : TransportStats :=
  if st.foreignThreadReady then
    match st.stats with
    | some s =>
      { bytesOut := s.bytesOut
        bytesIn := s.bytesIn
        packetsOut := s.packetsOut
        packetsIn := s.packetsIn
        lastPacketReceived :=
          match s.lastPacketDelta with
          | some d => if d ≤ LAST_PACKET_CUTOFF then (d : Int) else -1
          | none => -1 }
    | none =>
      { bytesOut := 0, bytesIn := 0, packetsOut := 0, packetsIn := 0
        lastPacketReceived := -1 }
  else
    { bytesOut := 0, bytesIn := 0, packetsOut := 0, packetsIn := 0
      lastPacketReceived := -1 }

/-- The all-zero `TransportStats` snapshot the claim about pre-connect
accessors expects. -/
def zeroTransportStats : TransportStats :=
  { bytesOut := 0, bytesIn := 0, packetsOut := 0, packetsIn := 0, lastPacketReceived := 0 }

/-- The all-zero `InterfaceStats` snapshot. -/
def zeroInterfaceStats : InterfaceStats :=
  { bytesOut := 0, bytesIn := 0, packetsOut := 0, packetsIn := 0
    errorsOut := 0, errorsIn := 0 }

/-- The fields of `ClientAPI::EvalConfig` relevant to error surfacing. -/
structure EvalConfig where
  error : Bool
  message : List Char
  deriving Repr, DecidableEq

/-- Outcome of the option-parsing phase of
`OpenVPNClientHelper::parse_config` (the body of the `try` block:
`Protocol::parse`, `TriStateSetting::parse` and
`ParseClientConfig::parse`, all outside the snapshot): either a parsed
result carrying the `error()` / `message()` pair of `ParseClientConfig`,
or a thrown `std::exception` with its `what()` string. -/
inductive ParseOutcome where
  | parsed (error : Bool) (message : List Char)
  | threw (what : List Char)
  deriving Repr, DecidableEq

/-- Outcome of `OpenVPNClient::parse_extras` (import of client settings,
compression mode, proxy options): success or a thrown exception. -/
inductive ExtrasOutcome where
  | ok
  | threw (what : List Char)
  deriving Repr, DecidableEq

/-- `Unicode::utf8_printable(str, max_len)` (file outside the snapshot):
character-wise substitution of unprintable characters plus truncation to
`max_len` characters; modelled as plain truncation, which preserves
length up to the cap. -/
def utf8_printable (maxLen : Nat) (s : List Char) : List Char := s.take maxLen

/-- `OpenVPNClientHelper::parse_config(config, eval, options)`: on a
thrown parse exception, surface `error = true` with the message prefixed
`ERR_PROFILE_GENERIC: `; otherwise copy the error flag and message from
the parsed configuration. -/
def parse_config (o : ParseOutcome) : EvalConfig :=
  match o with
  | ParseOutcome.parsed err msg => { error := err, message := msg }
  | ParseOutcome.threw e =>
    { error := true, message := utf8_printable 256 ("ERR_PROFILE_GENERIC: ".data ++ e) }

/-- `OpenVPNClient::eval_config(config)`: run `parse_config`; on error
return at once, otherwise run `parse_extras` whose thrown exceptions are
also converted into the error/message fields.  The boolean of the result
is the `session` member of the client state: `eval_config` never creates
or starts a session (that happens in `connect()`), and it never lets a
parse exception escape (both `catch` blocks convert it). -/
def eval_config (o : ParseOutcome) (ex : ExtrasOutcome) (st : ClientState) :
    EvalConfig × ClientState :=
  let eval := parse_config o
  if eval.error then (eval, st)
  else
    match ex with
    | ExtrasOutcome.ok => (eval, st)
    | ExtrasOutcome.threw e =>
      ({ eval with error := true, message := utf8_printable 256 e }, st)

end ClientAPI

/-! ## Helper lemmas -/

namespace MbedSSL

theorem write_ciphertext_length_le (buf : Nat) (s : SSLState)
    (h : s.ctIn.length ≤ MAX_CIPHERTEXT_IN) :
    (write_ciphertext buf s).ctIn.length ≤ MAX_CIPHERTEXT_IN := by
  unfold write_ciphertext
  split
  · next hlt => simpa using hlt
  · exact h

theorem read_cleartext_snd_length_le (step : TLSReadStep) (s : SSLState) :
    (read_cleartext step s).2.ctIn.length ≤ s.ctIn.length := by
  unfold read_cleartext
  split
  · exact Nat.le_refl _
  · cases step.status <;> simp

theorem sslStep_length_le (s : SSLState) (e : SSLEv)
    (h : s.ctIn.length ≤ MAX_CIPHERTEXT_IN) :
    (sslStep s e).ctIn.length ≤ MAX_CIPHERTEXT_IN := by
  cases e with
  | write b => exact write_ciphertext_length_le b s h
  | read st => exact Nat.le_trans (read_cleartext_snd_length_le st s) h

theorem sslRun_length_le (evs : List SSLEv) :
    ∀ s : SSLState, s.ctIn.length ≤ MAX_CIPHERTEXT_IN →
      (sslRun s evs).ctIn.length ≤ MAX_CIPHERTEXT_IN := by
  induction evs with
  | nil => intro s h; exact h
  | cons e rest ih =>
    intro s h
    exact ih (sslStep s e) (sslStep_length_le s e h)

theorem read_cleartext_overflow (step : TLSReadStep) (s : SSLState)
    (h : s.overflow = true) :
    read_cleartext step s = (Except.error SslFailure.ciphertextInOverflow, s) := by
  unfold read_cleartext
  simp [h]

theorem sslStep_overflow_mono (s : SSLState) (e : SSLEv) (h : s.overflow = true) :
    (sslStep s e).overflow = true := by
  cases e with
  | write b =>
    show (write_ciphertext b s).overflow = true
    unfold write_ciphertext
    split <;> simp [h]
  | read st =>
    show (read_cleartext st s).2.overflow = true
    rw [read_cleartext_overflow st s h]
    exact h

end MbedSSL

namespace Replay

theorem accept_high_mono (w : Window) (id : Nat) : w.high ≤ ((accept w id).2).high := by
  unfold accept
  split_ifs with h1 h2 h3
  · exact Nat.le_refl _
  · exact Nat.le_refl _
  · exact Nat.le_of_lt h3
  · exact Nat.le_refl _

theorem acceptRun_high_mono (ids : List Nat) :
    ∀ w : Window, w.high ≤ (acceptRun w ids).high := by
  induction ids with
  | nil => intro w; exact Nat.le_refl _
  | cons id rest ih =>
    intro w
    exact Nat.le_trans (accept_high_mono w id) (ih (accept w id).2)

theorem accept_WF (w : Window) (id : Nat) (h : WF w) : WF ((accept w id).2) := by
  unfold accept
  split_ifs with h1 h2 h3
  · exact h
  · exact h
  · intro j hj
    simp only [List.mem_filter, List.mem_cons, decide_eq_true_eq] at hj
    obtain ⟨hj1, hj2⟩ := hj
    refine ⟨hj2, ?_⟩
    rcases hj1 with rfl | hmem
    · exact Nat.le_refl _
    · exact Nat.le_of_lt (Nat.lt_of_le_of_lt (h j hmem).2 h3)
  · intro j hj
    rcases List.mem_cons.mp hj with rfl | hmem
    · exact ⟨Nat.lt_of_not_le h1, Nat.le_of_not_lt h3⟩
    · exact h j hmem

end Replay

namespace ClientAPI

theorem StopObj.stop_idem (o : StopObj) : o.stop.stop = o.stop := by
  by_cases h : o.stopped
  · simp [StopObj.stop, h]
  · simp [StopObj.stop, h]

theorem stop_stop (st : ClientState) : stop (stop st) = stop st := by
  by_cases h : st.foreignThreadReady
  · simp [stop, h, StopObj.stop_idem]
  · simp [stop, h]

end ClientAPI

namespace HostPort

theorem parse_dec_go_eq_some (s : List Char) :
    ∀ acc v : Nat, parse_dec_go s acc = some v ↔
      (s.all isDecDigit = true
        ∧ v = s.foldl (fun a c => a * 10 + (c.toNat - 48)) acc) := by
  induction s with
  | nil =>
    intro acc v
    simp [parse_dec_go, eq_comm]
  | cons c rest ih =>
    intro acc v
    by_cases hc : isDecDigit c = true
    · simp [parse_dec_go, hc, ih]
    · simp [parse_dec_go, hc]

theorem parse_number_eq_some (s : List Char) (v : Nat) :
    parse_number s = some v ↔
      (s ≠ [] ∧ s.all isDecDigit = true ∧ v = decValue s) := by
  cases s with
  | nil => simp [parse_number]
  | cons c rest =>
    rw [show parse_number (c :: rest) = parse_dec_go (c :: rest) 0 from rfl]
    rw [parse_dec_go_eq_some]
    simp [decValue]

theorem is_valid_port_str_iff (s : List Char) :
    is_valid_port_str s = true ↔
      (s.length ≤ 5 ∧ s ≠ [] ∧ s.all isDecDigit = true
        ∧ 1 ≤ decValue s ∧ decValue s ≤ 65535) := by
  unfold is_valid_port_str parse_number_validate
  by_cases hl : s.length ≤ 5
  · rw [if_pos hl]
    cases hp : parse_number s with
    | none =>
      simp only [Option.isSome_none, Bool.false_eq_true, false_iff]
      rintro ⟨-, hne, hall, -, -⟩
      have : parse_number s = some (decValue s) :=
        (parse_number_eq_some s _).mpr ⟨hne, hall, rfl⟩
      rw [hp] at this
      exact Option.noConfusion this
    | some v =>
      obtain ⟨hne, hall, hv⟩ := (parse_number_eq_some s v).mp hp
      subst hv
      dsimp only
      split_ifs with hr
      · simp only [Option.isSome_some, true_iff]
        exact ⟨hl, hne, hall, hr.1, hr.2⟩
      · simp only [Option.isSome_none, Bool.false_eq_true, false_iff]
        rintro ⟨-, -, -, h1, h2⟩
        exact hr ⟨h1, h2⟩
  · rw [if_neg hl]
    simp only [Option.isSome_none, Bool.false_eq_true, false_iff]
    rintro ⟨h1, -⟩
    exact hl h1

theorem split_host_port_valid_of_some (str dp : List Char) (au : Bool)
    (h p : List Char) (hs : split_host_port str dp au = some (h, p)) :
    (au = true ∧ p = "unix".data ∧ is_valid_unix_sock h = true)
    ∨ (is_valid_host h = true ∧ is_valid_port_str p = true) := by
  unfold split_host_port at hs
  cases hr : split_raw str dp with
  | none => rw [hr] at hs; exact Option.noConfusion hs
  | some hp0 =>
    obtain ⟨h0, port⟩ := hp0
    rw [hr] at hs
    dsimp only at hs
    by_cases hu : (au && port == "unix".data) = true
    · rw [if_pos hu] at hs
      split_ifs at hs with hvs
      · simp only [Option.some.injEq, Prod.mk.injEq] at hs
        obtain ⟨rfl, rfl⟩ := hs
        rw [Bool.and_eq_true] at hu
        exact Or.inl ⟨hu.1, eq_of_beq hu.2, hvs⟩
    · rw [if_neg hu] at hs
      split_ifs at hs with hv
      · simp only [Option.some.injEq, Prod.mk.injEq] at hs
        obtain ⟨rfl, rfl⟩ := hs
        rw [Bool.and_eq_true] at hv
        exact Or.inr ⟨hv.1, hv.2⟩

end HostPort

/-! ## Claim theorems -/

/-- C1 counterexample: the claim says the TLS key-material exporter call
succeeds for every session that completes the handshake; in the mbed TLS
backend `export_keying_material` is hardwired to `return false`, so the
concrete exporter call with the OpenVPN label and a 256-byte request does
not succeed. -/
theorem mbedtls_exporter_never_succeeds :
    ¬ (OpenVPN.MbedSSL.export_keying_material "EXPORTER-OpenVPN-datakeys".data 256 = true) := by
  decide

/-- C1 (amended): the mbed TLS adapter does not implement the TLS
key-material exporter: `export_keying_material` returns false for every
label and size, and the context reports
`support_key_material_export() = false`, so no session obtains the
256-byte seed through the exporter in this backend. -/
theorem mbedtls_exporter_unsupported :
    (∀ (label : List Char) (size : Nat),
        OpenVPN.MbedSSL.export_keying_material label size = false)
    ∧ OpenVPN.MbedSSL.support_key_material_export = false := by
  exact ⟨fun _ _ => rfl, rfl⟩

/-- C2: the ciphertext input queue of an mbed TLS session never holds more
than `MAX_CIPHERTEXT_IN = 64` records in any reachable state; a
`write_ciphertext` call arriving with 64 records already queued leaves the
queue untouched and sets the overflow flag; once `overflow` is set every
`read_cleartext` call throws `ssl_ciphertext_in_overflow` (the fatal
SSL_ERROR) instead of returning data, and no later event clears the
flag. -/
theorem mbedtls_ciphertext_queue_bound_and_overflow :
    (∀ evs : List OpenVPN.MbedSSL.SSLEv,
        (OpenVPN.MbedSSL.sslRun OpenVPN.MbedSSL.initSSLState evs).ctIn.length
          ≤ OpenVPN.MbedSSL.MAX_CIPHERTEXT_IN)
    ∧ (∀ (s : OpenVPN.MbedSSL.SSLState) (buf : Nat),
        s.ctIn.length = OpenVPN.MbedSSL.MAX_CIPHERTEXT_IN →
        OpenVPN.MbedSSL.write_ciphertext buf s = { s with overflow := true })
    ∧ (∀ (s : OpenVPN.MbedSSL.SSLState) (step : OpenVPN.MbedSSL.TLSReadStep),
        s.overflow = true →
        OpenVPN.MbedSSL.read_cleartext step s
          = (Except.error OpenVPN.MbedSSL.SslFailure.ciphertextInOverflow, s))
    ∧ (∀ (s : OpenVPN.MbedSSL.SSLState) (e : OpenVPN.MbedSSL.SSLEv),
        s.overflow = true → (OpenVPN.MbedSSL.sslStep s e).overflow = true) := by
  refine ⟨?_, ?_, ?_, ?_⟩
  · intro evs
    exact OpenVPN.MbedSSL.sslRun_length_le evs _ (by simp [OpenVPN.MbedSSL.initSSLState])
  · intro s buf h
    unfold OpenVPN.MbedSSL.write_ciphertext
    split
    · next hlt => omega
    · rfl
  · exact fun s step h => OpenVPN.MbedSSL.read_cleartext_overflow step s h
  · exact OpenVPN.MbedSSL.sslStep_overflow_mono

/-- C2 witness: the bound, the rejected 65th record, and the sealed reads,
evaluated at concrete inputs. -/
theorem mbedtls_ciphertext_queue_bound_and_overflow_witness :
    ((OpenVPN.MbedSSL.sslRun OpenVPN.MbedSSL.initSSLState
        [OpenVPN.MbedSSL.SSLEv.write 7]).ctIn.length
      ≤ OpenVPN.MbedSSL.MAX_CIPHERTEXT_IN)
    ∧ OpenVPN.MbedSSL.write_ciphertext 99
        { ctIn := List.range 64, overflow := false }
        = { ctIn := List.range 64, overflow := true }
    ∧ OpenVPN.MbedSSL.read_cleartext
        { status := OpenVPN.MbedSSL.MbedStatus.wouldBlock, consumed := 0 }
        { ctIn := [], overflow := true }
        = (Except.error OpenVPN.MbedSSL.SslFailure.ciphertextInOverflow,
            { ctIn := [], overflow := true })
    ∧ (OpenVPN.MbedSSL.sslStep { ctIn := [], overflow := true }
        (OpenVPN.MbedSSL.SSLEv.write 3)).overflow = true := by
  refine ⟨mbedtls_ciphertext_queue_bound_and_overflow.1 _, ?_, ?_, ?_⟩
  · exact mbedtls_ciphertext_queue_bound_and_overflow.2.1 _ 99 (by decide)
  · exact mbedtls_ciphertext_queue_bound_and_overflow.2.2.1 _ _ rfl
  · exact mbedtls_ciphertext_queue_bound_and_overflow.2.2.2 _ _ rfl

/-- C3: replay-window invariant (modelled from the spec, the packet-id
service is outside the snapshot): the high-water mark never decreases
over any sequence of accepts; every id with `id + width ≤ high`
(integer `id ≤ high − width`) is rejected as expired, in particular
`high − width` itself; every id whose bit is set is rejected as a
duplicate; and `high − width + 1` is accepted exactly when its bit is
unset.  Well-formedness of the bit set is preserved by `accept`. -/
theorem replay_window_invariant :
    (∀ (w : OpenVPN.Replay.Window) (ids : List Nat),
        w.high ≤ (OpenVPN.Replay.acceptRun w ids).high)
    ∧ (∀ (w : OpenVPN.Replay.Window) (id : Nat), id + w.width ≤ w.high →
        (OpenVPN.Replay.accept w id).1 = OpenVPN.Replay.AcceptResult.rejectedExpired)
    ∧ (∀ (w : OpenVPN.Replay.Window) (id : Nat), OpenVPN.Replay.WF w → id ∈ w.seen →
        (OpenVPN.Replay.accept w id).1 = OpenVPN.Replay.AcceptResult.rejectedReplay)
    ∧ (∀ w : OpenVPN.Replay.Window, w.width ≤ w.high →
        (OpenVPN.Replay.accept w (w.high - w.width)).1
          = OpenVPN.Replay.AcceptResult.rejectedExpired)
    ∧ (∀ w : OpenVPN.Replay.Window, w.width ≤ w.high →
        ((OpenVPN.Replay.accept w (w.high - w.width + 1)).1
            = OpenVPN.Replay.AcceptResult.accepted
          ↔ (w.high - w.width + 1) ∉ w.seen))
    ∧ (∀ (w : OpenVPN.Replay.Window) (id : Nat), OpenVPN.Replay.WF w →
        OpenVPN.Replay.WF (OpenVPN.Replay.accept w id).2) := by
  refine ⟨?_, ?_, ?_, ?_, ?_, ?_⟩
  · intro w ids
    exact OpenVPN.Replay.acceptRun_high_mono ids w
  · intro w id h
    unfold OpenVPN.Replay.accept
    rw [if_pos h]
  · intro w id hwf hmem
    unfold OpenVPN.Replay.accept
    rw [if_neg (Nat.not_le.mpr (hwf id hmem).1), if_pos hmem]
  · intro w h
    unfold OpenVPN.Replay.accept
    rw [if_pos (by omega)]
  · intro w h
    unfold OpenVPN.Replay.accept
    rw [if_neg (by omega)]
    by_cases hmem : (w.high - w.width + 1) ∈ w.seen
    · simp [hmem]
    · simp only [hmem, if_false]
      split_ifs <;> simp [hmem]
  · intro w id hwf
    exact OpenVPN.Replay.accept_WF w id hwf

/-- C3 witness: a concrete width-8 window with high-water mark 10 and bits
set for 10 and 7; id 2 is expired, id 7 is a duplicate, `high − width = 2`
is rejected, `high − width + 1 = 3` is accepted, and the high-water mark
does not decrease over a run. -/
theorem replay_window_invariant_witness :
    ((⟨8, 10, [10, 7]⟩ : OpenVPN.Replay.Window).high
        ≤ (OpenVPN.Replay.acceptRun ⟨8, 10, [10, 7]⟩ [12, 3]).high)
    ∧ (2 + 8 ≤ 10
        ∧ (OpenVPN.Replay.accept ⟨8, 10, [10, 7]⟩ 2).1
            = OpenVPN.Replay.AcceptResult.rejectedExpired)
    ∧ (OpenVPN.Replay.WF ⟨8, 10, [10, 7]⟩
        ∧ (OpenVPN.Replay.accept ⟨8, 10, [10, 7]⟩ 7).1
            = OpenVPN.Replay.AcceptResult.rejectedReplay)
    ∧ (OpenVPN.Replay.accept ⟨8, 10, [10, 7]⟩ (10 - 8)).1
        = OpenVPN.Replay.AcceptResult.rejectedExpired
    ∧ ((OpenVPN.Replay.accept ⟨8, 10, [10, 7]⟩ (10 - 8 + 1)).1
          = OpenVPN.Replay.AcceptResult.accepted
        ↔ (10 - 8 + 1) ∉ ([10, 7] : List Nat))
    ∧ OpenVPN.Replay.WF (OpenVPN.Replay.accept ⟨8, 10, [10, 7]⟩ 12).2 := by
  refine ⟨replay_window_invariant.1 _ _, ⟨by decide, ?_⟩,
    ⟨by unfold OpenVPN.Replay.WF; decide, ?_⟩, ?_, ?_, ?_⟩
  · exact replay_window_invariant.2.1 _ 2 (by decide)
  · exact replay_window_invariant.2.2.1 _ 7 (by unfold OpenVPN.Replay.WF; decide) (by decide)
  · exact replay_window_invariant.2.2.2.1 _ (by decide)
  · exact replay_window_invariant.2.2.2.2.1 _ (by decide)
  · exact replay_window_invariant.2.2.2.2.2 _ 12 (by unfold OpenVPN.Replay.WF; decide)

/-- C4: `OpenVPNClient::stop()` is idempotent (the `Stop` object is
modelled from the spec): calling it N ≥ 1 times leaves the client in the
same state as calling it once, whether or not foreign-thread access is
enabled. -/
theorem client_stop_idempotent (st : OpenVPN.ClientAPI.ClientState) (n : Nat)
    (h : 1 ≤ n) : OpenVPN.ClientAPI.stop^[n] st = OpenVPN.ClientAPI.stop st := by
  obtain ⟨m, rfl⟩ : ∃ m, n = m + 1 := ⟨n - 1, by omega⟩
  induction m with
  | zero => rfl
  | succ k ih =>
    rw [Function.iterate_succ_apply']
    rw [ih (by omega)]
    exact OpenVPN.ClientAPI.stop_stop st

/-- C4 witness: three stops equal one stop on a concrete started client. -/
theorem client_stop_idempotent_witness :
    1 ≤ 3
    ∧ OpenVPN.ClientAPI.stop^[3]
        { OpenVPN.ClientAPI.initClientState with foreignThreadReady := true }
      = OpenVPN.ClientAPI.stop
        { OpenVPN.ClientAPI.initClientState with foreignThreadReady := true } :=
  ⟨by decide,
    client_stop_idempotent
      { OpenVPN.ClientAPI.initClientState with foreignThreadReady := true } 3 (by decide)⟩

/-- C5 counterexample: the claim says the peer certificate identity
metadata is exposed through `AuthCert` in every session regardless of
client or server mode; but the `MbedTLSContext::SSL` constructor
allocates the authcert only in server mode, so a client-mode session
exposes no `AuthCert` at all. -/
theorem client_mode_authcert_absent :
    OpenVPN.MbedVerify.auth_cert
      (OpenVPN.MbedVerify.mkSSL OpenVPN.MbedVerify.Mode.client) = none := by
  rfl

/-- C5 (amended): only server-mode sessions expose peer identity metadata,
and the fields filled are the common name, the zero-padded leaf serial
and the issuer (depth-1) SHA1 fingerprint — no subject alternative name:
after the verify callback has run on the issuer and leaf certificates the
authcert is defined with exactly those fields, a client-mode session has
no authcert, and `verify_callback_client` never touches the authcert
state. -/
theorem server_mode_authcert_metadata :
    (∀ (cap : Nat) (checks1 checks0 : OpenVPN.MbedVerify.LeafChecks)
        (issuer leaf : OpenVPN.MbedVerify.X509Cert) (fp : List Nat),
      issuer.rawSha1 = some fp →
      0 < leaf.serialRaw.length →
      leaf.serialRaw.length ≤ cap →
      OpenVPN.MbedVerify.auth_cert
          (OpenVPN.MbedVerify.verify_callback_server cap checks0 leaf 0
            (OpenVPN.MbedVerify.verify_callback_server cap checks1 issuer 1
              (OpenVPN.MbedVerify.mkSSL OpenVPN.MbedVerify.Mode.server)).1).1
        = some
            { cn := leaf.cn
              serial := some
                (List.replicate (cap - leaf.serialRaw.length) 0 ++ leaf.serialRaw)
              issuerFp := some fp
              defined_ := true })
    ∧ OpenVPN.MbedVerify.auth_cert
        (OpenVPN.MbedVerify.mkSSL OpenVPN.MbedVerify.Mode.client) = none
    ∧ (∀ (checks : OpenVPN.MbedVerify.LeafChecks) (tro x5 : Option Bool) (d : Nat)
        (ssl : OpenVPN.MbedVerify.SSLVerify),
        (OpenVPN.MbedVerify.verify_callback_client checks tro x5 d ssl).1 = ssl) := by
  refine ⟨?_, rfl, ?_⟩
  · intro cap checks1 checks0 issuer leaf fp hfp h1 h2
    simp [OpenVPN.MbedVerify.verify_callback_server, OpenVPN.MbedVerify.mkSSL,
      OpenVPN.MbedVerify.load_issuer_fingerprint_into_authcert, hfp,
      OpenVPN.MbedVerify.load_serial_number_into_authcert,
      OpenVPN.MbedVerify.emptyAuthCert, OpenVPN.MbedVerify.auth_cert, h1, h2]
  · intro checks tro x5 d ssl
    unfold OpenVPN.MbedVerify.verify_callback_client
    split_ifs <;> rfl

/-- C5 witness: a two-level chain with concrete certificates. -/
theorem server_mode_authcert_metadata_witness :
    OpenVPN.MbedVerify.auth_cert
        (OpenVPN.MbedVerify.verify_callback_server 8
          ⟨false, true, false, true, false, true⟩
          { cn := "server-1".data, serialRaw := [1, 2], rawSha1 := none } 0
          (OpenVPN.MbedVerify.verify_callback_server 8
            ⟨false, true, false, true, false, true⟩
            { cn := "ca".data, serialRaw := [9], rawSha1 := some [3, 4, 5] } 1
            (OpenVPN.MbedVerify.mkSSL OpenVPN.MbedVerify.Mode.server)).1).1
      = some
          { cn := "server-1".data
            serial := some [0, 0, 0, 0, 0, 0, 1, 2]
            issuerFp := some [3, 4, 5]
            defined_ := true } := by
  have := server_mode_authcert_metadata.1 8
    ⟨false, true, false, true, false, true⟩ ⟨false, true, false, true, false, true⟩
    { cn := "ca".data, serialRaw := [9], rawSha1 := some [3, 4, 5] }
    { cn := "server-1".data, serialRaw := [1, 2], rawSha1 := none }
    [3, 4, 5] rfl (by decide) (by decide)
  simpa using this

/-- C6: every configuration whose parsing or validation fails is surfaced
as an `EvalConfig` result with `error = true` and a non-empty message
(given that the validation layer reports errors with non-empty text), the
client state — in particular the not-yet-created session — is untouched,
and `eval_config` converts every thrown parse exception into such a
result instead of propagating it (its result type is a plain value). -/
theorem eval_config_surfaces_errors :
    ∀ (o : OpenVPN.ClientAPI.ParseOutcome) (ex : OpenVPN.ClientAPI.ExtrasOutcome)
      (st : OpenVPN.ClientAPI.ClientState),
      ((OpenVPN.ClientAPI.eval_config o ex st).2 = st)
      ∧ (∀ e, o = OpenVPN.ClientAPI.ParseOutcome.threw e →
          (OpenVPN.ClientAPI.eval_config o ex st).1.error = true
          ∧ (OpenVPN.ClientAPI.eval_config o ex st).1.message ≠ [])
      ∧ (∀ msg, o = OpenVPN.ClientAPI.ParseOutcome.parsed true msg → msg ≠ [] →
          (OpenVPN.ClientAPI.eval_config o ex st).1.error = true
          ∧ (OpenVPN.ClientAPI.eval_config o ex st).1.message ≠ [])
      ∧ (∀ msg e, o = OpenVPN.ClientAPI.ParseOutcome.parsed false msg →
          ex = OpenVPN.ClientAPI.ExtrasOutcome.threw e → e ≠ [] →
          (OpenVPN.ClientAPI.eval_config o ex st).1.error = true
          ∧ (OpenVPN.ClientAPI.eval_config o ex st).1.message ≠ []) := by
  intro o ex st
  refine ⟨?_, ?_, ?_, ?_⟩
  · cases ex <;> (dsimp only [OpenVPN.ClientAPI.eval_config]; split <;> rfl)
  · rintro e rfl
    constructor
    · rfl
    · show OpenVPN.ClientAPI.utf8_printable 256 ("ERR_PROFILE_GENERIC: ".data ++ e) ≠ []
      unfold OpenVPN.ClientAPI.utf8_printable
      intro hnil
      have hlen := congrArg List.length hnil
      simp [List.length_take, List.length_append] at hlen
  · rintro msg rfl hne
    exact ⟨rfl, hne⟩
  · rintro msg e rfl rfl hne
    constructor
    · rfl
    · show OpenVPN.ClientAPI.utf8_printable 256 e ≠ []
      unfold OpenVPN.ClientAPI.utf8_printable
      intro hnil
      have hlen := congrArg List.length hnil
      rcases e with - | ⟨c, rest⟩
      · exact hne rfl
      · simp [List.length_take] at hlen

/-- C6 witness: a throwing parse on a fresh client. -/
theorem eval_config_surfaces_errors_witness :
    ((OpenVPN.ClientAPI.eval_config (OpenVPN.ClientAPI.ParseOutcome.threw "boom".data)
        OpenVPN.ClientAPI.ExtrasOutcome.ok OpenVPN.ClientAPI.initClientState).2
      = OpenVPN.ClientAPI.initClientState)
    ∧ (OpenVPN.ClientAPI.eval_config (OpenVPN.ClientAPI.ParseOutcome.threw "boom".data)
        OpenVPN.ClientAPI.ExtrasOutcome.ok OpenVPN.ClientAPI.initClientState).1.error = true
    ∧ (OpenVPN.ClientAPI.eval_config (OpenVPN.ClientAPI.ParseOutcome.threw "boom".data)
        OpenVPN.ClientAPI.ExtrasOutcome.ok OpenVPN.ClientAPI.initClientState).1.message ≠ [] := by
  refine ⟨(eval_config_surfaces_errors _ _ _).1, ?_, ?_⟩
  · exact ((eval_config_surfaces_errors _ _ _).2.1 _ rfl).1
  · exact ((eval_config_surfaces_errors _ _ _).2.1 _ rfl).2

/-- C7 counterexample: the claim says `session_token` returns true exactly
when a session id is defined for the current credentials; but before
`connect()` has enabled foreign-thread access the function returns false
even though the concrete credentials below have a defined session id. -/
theorem session_token_defined_but_none :
    OpenVPN.ClientAPI.session_token
        { foreignThreadReady := false
          creds := some { username := "u".data, password := "sid".data, sessionIdDefined := true }
          session := none
          stats := none
          asyncStopLocal := { stopped := false, fires := 0 } } = none
    ∧ ({ username := "u".data, password := "sid".data, sessionIdDefined := true }
        : OpenVPN.ClientAPI.ClientCreds).sessionIdDefined = true :=
  ⟨rfl, rfl⟩

/-- C7 (amended): `session_token` succeeds exactly when foreign-thread
access has been enabled (a session was attached and started) and the
stored credentials have a defined session id; it then returns the stored
username together with the password slot, which holds the session id;
otherwise it returns false with the token untouched. -/
theorem session_token_semantics (st : OpenVPN.ClientAPI.ClientState) :
    ((OpenVPN.ClientAPI.session_token st).isSome = true ↔
      st.foreignThreadReady = true
      ∧ ∃ cc, st.creds = some cc ∧ cc.sessionIdDefined = true)
    ∧ (∀ cc : OpenVPN.ClientAPI.ClientCreds,
        st.foreignThreadReady = true → st.creds = some cc → cc.sessionIdDefined = true →
        OpenVPN.ClientAPI.session_token st
          = some { username := cc.username, session_id := cc.password }) := by
  constructor
  · unfold OpenVPN.ClientAPI.session_token
    by_cases hf : st.foreignThreadReady
    · cases hc : st.creds with
      | none => simp [hf, hc]
      | some cc =>
        by_cases hsid : cc.sessionIdDefined <;> simp [hf, hc, hsid]
    · simp [hf]
  · intro cc hf hc hsid
    unfold OpenVPN.ClientAPI.session_token
    simp [hf, hc, hsid]

/-- C7 witness: a started client with a defined session id. -/
theorem session_token_semantics_witness :
    OpenVPN.ClientAPI.session_token
        { foreignThreadReady := true
          creds := some { username := "u".data, password := "sid".data, sessionIdDefined := true }
          session := none
          stats := none
          asyncStopLocal := { stopped := false, fires := 0 } }
      = some { username := "u".data, session_id := "sid".data } :=
  (session_token_semantics _).2
    { username := "u".data, password := "sid".data, sessionIdDefined := true }
    rfl rfl rfl

/-- C9 counterexample: the claim says every stats accessor called before
`connect()` returns an all-zero snapshot; but `transport_stats` on a
fresh client returns `lastPacketReceived = -1` (undefined), not 0. -/
theorem pre_connect_transport_stats_not_zero :
    (OpenVPN.ClientAPI.transport_stats OpenVPN.ClientAPI.initClientState).lastPacketReceived = -1
    ∧ OpenVPN.ClientAPI.transport_stats OpenVPN.ClientAPI.initClientState
        ≠ OpenVPN.ClientAPI.zeroTransportStats := by
  exact ⟨rfl, by decide⟩

/-- C9 (amended): before `connect()` has attached and started a session
(foreign-thread access disabled), `stop`, `pause`, `resume` and
`reconnect` are no-ops on the client state; `stats_value` returns 0,
`stats_bundle` returns all zeros, `tun_stats` returns the zero snapshot,
and `transport_stats` returns zero counters with
`lastPacketReceived = -1` (undefined). -/
theorem pre_connect_noop_and_zero_stats (st : OpenVPN.ClientAPI.ClientState)
    (reason : List Char) (secs : Int) (i n : Nat)
    (h : st.foreignThreadReady = false) :
    OpenVPN.ClientAPI.stop st = st
    ∧ OpenVPN.ClientAPI.pause reason st = st
    ∧ OpenVPN.ClientAPI.resume st = st
    ∧ OpenVPN.ClientAPI.reconnect secs st = st
    ∧ OpenVPN.ClientAPI.stats_value i st = 0
    ∧ OpenVPN.ClientAPI.stats_bundle n st = List.replicate n 0
    ∧ OpenVPN.ClientAPI.tun_stats st = OpenVPN.ClientAPI.zeroInterfaceStats
    ∧ OpenVPN.ClientAPI.transport_stats st
        = { bytesIn := 0, bytesOut := 0, packetsIn := 0, packetsOut := 0
            lastPacketReceived := -1 } := by
  refine ⟨?_, ?_, ?_, ?_, ?_, ?_, ?_, ?_⟩ <;>
    simp [OpenVPN.ClientAPI.stop, OpenVPN.ClientAPI.pause, OpenVPN.ClientAPI.resume,
      OpenVPN.ClientAPI.reconnect, OpenVPN.ClientAPI.stats_value,
      OpenVPN.ClientAPI.stats_bundle, OpenVPN.ClientAPI.tun_stats,
      OpenVPN.ClientAPI.transport_stats, OpenVPN.ClientAPI.zeroInterfaceStats, h]

/-- C9 witness: the amended statement evaluated on a fresh client. -/
theorem pre_connect_noop_and_zero_stats_witness :
    OpenVPN.ClientAPI.stop OpenVPN.ClientAPI.initClientState
      = OpenVPN.ClientAPI.initClientState
    ∧ OpenVPN.ClientAPI.stats_bundle 3 OpenVPN.ClientAPI.initClientState
      = List.replicate 3 0
    ∧ OpenVPN.ClientAPI.transport_stats OpenVPN.ClientAPI.initClientState
        = { bytesIn := 0, bytesOut := 0, packetsIn := 0, packetsOut := 0
            lastPacketReceived := -1 } := by
  have h := pre_connect_noop_and_zero_stats OpenVPN.ClientAPI.initClientState
    "why".data 5 0 3 rfl
  exact ⟨h.1, h.2.2.2.2.2.1, h.2.2.2.2.2.2.2⟩

/-- C8: `TLSRemote::test` accepts exactly when the tls-remote string
equals the sanitized subject character for character, or is a prefix of
the sanitized common name; in particular any (sanitized) common name that
extends the tls-remote value by arbitrary trailing characters passes. -/
theorem tls_remote_test_prefix_semantics :
    ∀ t subj cn : List Char,
      (OpenVPN.TLSRemote.test t (OpenVPN.TLSRemote.sanitize_x509_name subj)
          (OpenVPN.TLSRemote.sanitize_common_name cn) = true
        ↔ (t = OpenVPN.TLSRemote.sanitize_x509_name subj
            ∨ List.IsPrefix t (OpenVPN.TLSRemote.sanitize_common_name cn)))
      ∧ (∀ s ext : List Char, OpenVPN.TLSRemote.test t s (t ++ ext) = true) := by
  intro t subj cn
  constructor
  · unfold OpenVPN.TLSRemote.test
    rw [Bool.or_eq_true, beq_iff_eq, List.isPrefixOf_iff_prefix]
  · intro s ext
    unfold OpenVPN.TLSRemote.test
    rw [Bool.or_eq_true, List.isPrefixOf_iff_prefix]
    exact Or.inr (List.prefix_append t ext)

/-- C10: the numeric `is_valid_port` accepts exactly the ports below
65536 (so port 0 validates); the string `is_valid_port` accepts exactly
the decimal strings of at most 5 digits whose value lies in 1..65535 (so
the string "0" is rejected); and whenever `split_host_port` succeeds, the
port substring satisfies the string-side rule or equals "unix" with
`allow_unix` set. -/
theorem host_port_validation :
    (∀ p : Nat, OpenVPN.HostPort.is_valid_port_num p = true ↔ p < 65536)
    ∧ (∀ s : List Char,
        OpenVPN.HostPort.is_valid_port_str s = true ↔
          (s.length ≤ 5 ∧ s ≠ []
            ∧ s.all OpenVPN.HostPort.isDecDigit = true
            ∧ 1 ≤ OpenVPN.HostPort.decValue s
            ∧ OpenVPN.HostPort.decValue s ≤ 65535))
    ∧ (OpenVPN.HostPort.is_valid_port_num 0 = true
        ∧ OpenVPN.HostPort.is_valid_port_str "0".data = false)
    ∧ (∀ (str dp : List Char) (au : Bool) (h p : List Char),
        OpenVPN.HostPort.split_host_port str dp au = some (h, p) →
        (au = true ∧ p = "unix".data ∧ OpenVPN.HostPort.is_valid_unix_sock h = true)
        ∨ (OpenVPN.HostPort.is_valid_host h = true
            ∧ OpenVPN.HostPort.is_valid_port_str p = true)) := by
  refine ⟨?_, OpenVPN.HostPort.is_valid_port_str_iff, ⟨rfl, by decide⟩, ?_⟩
  · intro p
    simp [OpenVPN.HostPort.is_valid_port_num]
  · exact OpenVPN.HostPort.split_host_port_valid_of_some

/-- C10 witness: `host:1194` splits into a valid host and port, and the
resulting port satisfies the string-side rule. -/
theorem host_port_validation_witness :
    OpenVPN.HostPort.split_host_port "host:1194".data "".data false
        = some ("host".data, "1194".data)
    ∧ ((false = true ∧ "1194".data = "unix".data
          ∧ OpenVPN.HostPort.is_valid_unix_sock "host".data = true)
        ∨ (OpenVPN.HostPort.is_valid_host "host".data = true
            ∧ OpenVPN.HostPort.is_valid_port_str "1194".data = true)) := by
  have hsplit : OpenVPN.HostPort.split_host_port "host:1194".data "".data false
      = some ("host".data, "1194".data) := by decide
  exact ⟨hsplit, host_port_validation.2.2.2 _ _ _ _ _ hsplit⟩

end OpenVPN
